import Mathlib

/-!
Verification development for the AutoFolio algorithm-selection core.

The definitions below are a shallow embedding of the two source modules
`autofolio/selector/pairwise_classification.py` and `autofolio/autofolio.py`:
pure data flow is translated into Lean functions, Python exceptions into
`Except PyError`, numpy arrays over instances into functions `Nat -> _` over
row indices, and Python dicts into association lists (insertion-ordered, as in
Python 3.7+).  Performance values are embedded as integers (the claims under
study only depend on ordering and exact arithmetic on them).
-/

/-- Python exceptions that the embedded code can raise. -/
inductive PyError where
| valueError : String → PyError
| indexError : String → PyError
| unboundLocalError : String → PyError
| typeError : String → PyError
deriving DecidableEq

/-- Contract of a binary classifier implementation
(`autofolio/selector/classifiers/*`): `fit(X, y, config, weights)` builds a
classifier object from the feature rows, the boolean label per row, the
configuration and the per-row sample weight; `predict(clf, X, k)` is the
0/1 prediction of the object on row `k` of `X`. -/
structure ClassifierClass (Feat Cfg C : Type) where
  fit : List Feat → (Nat → Bool) → Cfg → (Nat → Int) → C
  predict : C → List Feat → Nat → Bool

/-- The slice of `ASlibScenario` that the selection core reads:
`algorithms` (ordered, as in the scenario file), `instNames` is
`feature_data.index`, `X` is `feature_data.values` (one row per instance),
`perfCol a k` is `performance_data[a].values[k]`, plus the cutoff and the
maximize flag.  A cutoff of `0` plays the role of Python-falsy (0 / None). -/
structure ASlibScenario (Feat : Type) where
  algorithms : List String
  instNames : List String
  X : List Feat
  perfCol : String → Nat → Int
  algorithm_cutoff_time : Int
  maximize : Bool

/-- Python `range(a, b)`. -/
def pyRange (a b : Nat) : List Nat := (List.range (b - a)).map (fun k => a + k)

/-- The nested loops `for i in range(n_algos): for j in range(i+1, n_algos):`
shared by `PairwiseClassifier.fit` and `PairwiseClassifier.predict`. -/
def canonicalPairs (n : Nat) : List (Nat × Nat) :=
  (pyRange 0 n).flatMap (fun i => (pyRange (i + 1) n).map (fun j => (i, j)))

/-- Fitted selector state: the classifier class given to `__init__`, the
positional list `self.classifiers`, and the fit-time `self.algorithms`
snapshot. -/
structure PairwiseClassifier (Feat Cfg C : Type) where
  classifier_class : ClassifierClass Feat Cfg C
  classifiers : List C
  algorithms : List String

/-- `PairwiseClassifier.__init__(classifier_class)`: empty classifier list;
`self.algorithms` is unset until `fit` (embedded as `[]`). -/
def PairwiseClassifier.mk0 {Feat Cfg C : Type} (cc : ClassifierClass Feat Cfg C) :
    PairwiseClassifier Feat Cfg C :=
  ⟨cc, [], []⟩

/-- The label vector `y = y_i < y_j` built in `fit` for the pair `(i, j)`,
where `y_i = performance_data[algorithms[i]].values`. -/
def pairLabel {Feat : Type} (s : ASlibScenario Feat) (i j : Nat) : Nat → Bool :=
  fun k => decide (s.perfCol (s.algorithms.getD i "") k < s.perfCol (s.algorithms.getD j "") k)

/-- The sample weights `weights = np.abs(y_i - y_j)` built in `fit` for the
pair `(i, j)`. -/
def pairWeight {Feat : Type} (s : ASlibScenario Feat) (i j : Nat) : Nat → Int :=
  fun k => |s.perfCol (s.algorithms.getD i "") k - s.perfCol (s.algorithms.getD j "") k|

/-- `PairwiseClassifier.fit(scenario, config)`: records `self.algorithms`,
then for every `(i, j)` with `i < j` in canonical loop order constructs a
fresh classifier, fits it on `(X, y, config, weights)` and appends it to
`self.classifiers`. -/
def PairwiseClassifier.fit {Feat Cfg C : Type} (pc : PairwiseClassifier Feat Cfg C)
    (s : ASlibScenario Feat) (config : Cfg) : PairwiseClassifier Feat Cfg C :=
  ⟨pc.classifier_class,
   pc.classifiers ++ (canonicalPairs s.algorithms.length).map (fun ij =>
     pc.classifier_class.fit s.X (pairLabel s ij.1 ij.2) config (pairWeight s ij.1 ij.2)),
   s.algorithms⟩

/-- The walk `clf = self.classifiers[clf_indx]; clf_indx += 1` of `predict`:
pairs each enumerated `(i, j)` with the positionally corresponding stored
classifier, raising `IndexError` when the list is exhausted. -/
def fetchClassifiers {C : Type} (clfs : List C) :
    List (Nat × Nat) → Nat → Except PyError (List ((Nat × Nat) × C))
| [], _ => Except.ok []
| p :: ps, t =>
  match clfs[t]? with
  | some c => (fetchClassifiers clfs ps (t + 1)).map (fun rest => (p, c) :: rest)
  | none => Except.error (PyError.indexError "list index out of range")

/-- One pair's vote update
`scores[Y == 1, i] += 1; scores[Y == 0, j] += 1` on the score matrix
(`sc k a` is the entry for instance row `k` and algorithm column `a`). -/
def voteStep (sc : Nat → Nat → Nat) (ij : Nat × Nat) (pred : Nat → Bool) : Nat → Nat → Nat :=
  fun k a =>
    if pred k then (if a = ij.1 then sc k a + 1 else sc k a)
    else (if a = ij.2 then sc k a + 1 else sc k a)

/-- Accumulation of the vote matrix `scores` over the pair enumeration,
starting from `np.zeros((X.shape[0], n_algos))`. -/
def accumScores {Feat Cfg C : Type} (cc : ClassifierClass Feat Cfg C) (X : List Feat)
    (pcs : List ((Nat × Nat) × C)) : Nat → Nat → Nat :=
  pcs.foldl (fun sc q => voteStep sc q.1 (cc.predict q.2 X)) (fun _ _ => 0)

/-- `np.argmax` over one row: index of the first occurrence of the maximum
among columns `0 .. n-1`. -/
def npArgmax (f : Nat → Nat) (n : Nat) : Nat :=
  (List.range n).foldl (fun best a => if f a > f best then a else best) 0

/-- `PairwiseClassifier.predict(scenario)`: cutoff defaults to `2 ** 31` when
`scenario.algorithm_cutoff_time` is falsy; votes are accumulated over the
canonical pair enumeration using the positionally stored classifiers; each
instance row is mapped to the single-element schedule
`[(algorithms[argmax(scores[k])], cutoff + 1)]`, keyed by
`feature_data.index` via `zip`. -/
def PairwiseClassifier.predict {Feat Cfg C : Type} (pc : PairwiseClassifier Feat Cfg C)
    (s : ASlibScenario Feat) : Except PyError (List (String × List (String × Int))) :=
  let cutoff : Int := if s.algorithm_cutoff_time ≠ 0 then s.algorithm_cutoff_time else 2 ^ 31
  let n := s.algorithms.length
  (fetchClassifiers pc.classifiers (canonicalPairs n) 0).map (fun pcs =>
    let scores := accumScores pc.classifier_class s.X pcs
    let picks := (List.range s.X.length).map
      (fun k => (s.algorithms.getD (npArgmax (scores k) n) "", cutoff + 1))
    (picks.zip s.instNames).map (fun q => (q.2, [q.1])))

/-- The schedule combination at the end of `AutoFolio.predict`:
`if pre_solving_schedule:` (dict truthiness) combine by prepending
`pre_solving_schedule.get(inst, [])` to each selector entry, else return the
selector schedules unchanged. -/
def combineSchedules (pre preds : List (String × List (String × Int))) :
    List (String × List (String × Int)) :=
  if pre.isEmpty then preds
  else preds.map (fun q => (q.1, ((pre.lookup q.1).getD []) ++ q.2))

/-- `AutoFolio.run_cv`: the whole `try:` block (per-fold loop and the final
`cv_stat.show()`) is abstracted as `body`, an integer result or a raised
exception.  A `ValueError` is caught and replaced by the fallback
`cutoff * 10` (or `cutoff * -10` when maximizing); any other exception
propagates.  After the `try/except`, `if scenario.maximize[0]: par10 *= -1`
is applied to the value actually returned. -/
def run_cv (maximize : Bool) (cutoff : Int) (body : Except PyError Int) : Except PyError Int :=
  let par10 : Except PyError Int :=
    match body with
    | Except.ok v => Except.ok v
    | Except.error (PyError.valueError _) =>
        Except.ok (if maximize then cutoff * (-10) else cutoff * 10)
    | Except.error e => Except.error e
  match par10 with
  | Except.ok v => Except.ok (if maximize then v * (-1) else v)
  | Except.error e => Except.error e

/-- Python values stored in a configuration dictionary. -/
inductive PyVal where
| pynone : PyVal
| pybool : Bool → PyVal
| pyint : Int → PyVal
| pyfloat : Rat → PyVal
| pystr : String → PyVal
deriving DecidableEq

/-- Python truthiness of a configuration value. -/
def PyVal.truthy : PyVal → Bool
| PyVal.pynone => false
| PyVal.pybool b => b
| PyVal.pyint n => decide (n ≠ 0)
| PyVal.pyfloat q => decide (q ≠ 0)
| PyVal.pystr s => decide (s ≠ "")

/-- Kinds of ConfigSpace hyperparameters, as far as
`_overwrite_configuration` distinguishes them via `type(...) is ...`. -/
inductive HPType where
| uniformInteger : HPType
| uniformFloat : HPType
| categorical : HPType
deriving DecidableEq

/-- The local helper `pairwise(iterable)` of `_overwrite_configuration`
(`tee`-based): consecutive overlapping pairs of the argument list. -/
def pairwiseIter (l : List String) : List (String × String) := l.zip (l.drop 1)

/-- Value coercion chain of `_overwrite_configuration`: `int(value)` for a
uniform-integer hyperparameter, `float(value)` for a uniform-float one, then
the literal strings True and False, else the raw string.  The partial Python
parsers `int` / `float` are abstracted as `pInt` / `pFloat`. -/
def coerceOverride (hp : HPType) (pInt : String → Int) (pFloat : String → Rat)
    (value : String) : PyVal :=
  if hp = HPType.uniformInteger then PyVal.pyint (pInt value)
  else if hp = HPType.uniformFloat then PyVal.pyfloat (pFloat value)
  else if value = "True" then PyVal.pybool true
  else if value = "False" then PyVal.pybool false
  else PyVal.pystr value

/-- Python dict assignment `d[k] = v` on an insertion-ordered association
list: replace the binding in place, or append a new one at the end. -/
def setItem : List (String × PyVal) → String → PyVal → List (String × PyVal)
| [], k, v => [(k, v)]
| (k', v') :: rest, k, v =>
  if k' = k then (k, v) :: rest else (k', v') :: setItem rest k v

/-- One iteration of the loop in `_overwrite_configuration`: the guard is the
truthiness of `dict_conf.get(param)`; a falsy current value takes the `else`
branch, which only logs the parameter as unknown (the log is recorded in the
second state component). -/
def overwriteStep (csHP : String → HPType) (pInt : String → Int) (pFloat : String → Rat)
    (st : List (String × PyVal) × List (String × String)) (pv : String × String) :
    List (String × PyVal) × List (String × String) :=
  if (((st.1.lookup pv.1).getD PyVal.pynone)).truthy then
    (setItem st.1 pv.1 (coerceOverride (csHP pv.1) pInt pFloat pv.2), st.2)
  else (st.1, st.2 ++ [pv])

/-- `AutoFolio._overwrite_configuration`: folds the loop body over
`pairwise(overwrite_args)`, returning the final dictionary together with the
list of `param value` pairs logged as unknown parameters. -/
def overwriteConfiguration (csHP : String → HPType) (pInt : String → Int)
    (pFloat : String → Rat) (dict_conf : List (String × PyVal))
    (overwrite_args : List String) :
    List (String × PyVal) × List (String × String) :=
  (pairwiseIter overwrite_args).foldl (overwriteStep csHP pInt pFloat) (dict_conf, [])

/-- `AutoFolio.fit_selector`: the local variable `selector` is only assigned
inside the branch `config.get("selector") == "PairwiseClassifier"`; the final
`return selector` therefore raises `UnboundLocalError` for every other
configuration.  The classifier-class dispatch is abstracted by `rf` (the
class used when the configuration selects RandomForest); any other
classifier value leaves `clf_class = None`, which surfaces as the
`TypeError` that calling `None()` inside the selector's fit produces. -/
def fit_selector {Feat Cfg C : Type} (rf : ClassifierClass Feat Cfg C)
    (s : ASlibScenario Feat) (config : String → Option String) (cfg : Cfg) :
    Except PyError (PairwiseClassifier Feat Cfg C) :=
  if config "selector" = some "PairwiseClassifier" then
    if config "classifier" = some "RandomForest" then
      Except.ok ((PairwiseClassifier.mk0 rf).fit s cfg)
    else
      Except.error (PyError.typeError "NoneType object is not callable")
  else
    Except.error (PyError.unboundLocalError "local variable referenced before assignment")

/-- Modelled from the spec: strictly better under the scenario's
maximize/minimize convention (for runtime, smaller is better unless the
maximize flag is set).  Used to compare the spec's wording against the label
vector the source actually computes. -/
def strictlyBetterSpec (maximize : Bool) (a b : Int) : Bool :=
  if maximize then decide (b < a) else decide (a < b)

/-- Stable argmax specification: `m` attains the maximum of `f` on
`0 .. n-1` and is the lowest index among the maximizers. -/
def isStableArgmax (f : Nat → Nat) (n m : Nat) : Prop :=
  m < n ∧ (∀ a, a < n → f a ≤ f m) ∧ (∀ a, a < m → f a < f m)

/-- Observer instantiation of the classifier contract: fitting records the
label vector, predicting replays it.  Satisfies the fit/predict contract and
makes the labels passed by the selector observable. -/
def recordLabelCC (Feat Cfg : Type) : ClassifierClass Feat Cfg (Nat → Bool) :=
  ⟨fun _ y _ _ => y, fun y _ k => y k⟩

/-- Concrete observer classifier class over trivial features/configuration. -/
def recordCC : ClassifierClass Unit Unit (Nat → Bool) := recordLabelCC Unit Unit

/-- Concrete maximization scenario: one instance, two algorithms with
performances 1 and 2. -/
def sMax : ASlibScenario Unit :=
  ⟨["a1", "a2"], ["i1"], [()], fun a _ => if a = "a1" then 1 else 2, 100, true⟩

/-- Concrete scenario with a single algorithm. -/
def sOne : ASlibScenario Unit :=
  ⟨["a1"], ["i1"], [()], fun _ _ => 1, 100, false⟩

/-- Concrete two-algorithm minimization scenario, algorithm order A, B. -/
def sAB : ASlibScenario Unit :=
  ⟨["A", "B"], ["i1"], [()], fun a _ => if a = "A" then 1 else 2, 100, false⟩

/-- The same data with the algorithm list reversed, as a predict-time
scenario misaligned with `sAB`. -/
def sBA : ASlibScenario Unit :=
  ⟨["B", "A"], ["i1"], [()], fun a _ => if a = "B" then 1 else 2, 100, false⟩

/-- Concrete pre-solving schedule with a single instance entry. -/
def pre0 : List (String × List (String × Int)) := [("a", [("p", 5)])]

/-- Concrete selector schedule over two instances, one of which is absent
from `pre0`. -/
def preds0 : List (String × List (String × Int)) := [("a", [("s", 3)]), ("b", [("s2", 4)])]

/-! ### Basic facts about the pair enumeration -/

theorem pyRange_zero (n : Nat) : pyRange 0 n = List.range n := by
  simp [pyRange]

theorem canonicalPairs_eq_nil_of_lt_two (n : Nat) (h : n < 2) : canonicalPairs n = [] := by
  match n, h with
  | 0, _ => rfl
  | 1, _ => rfl

/-! ### Claim C4: run_cv fallback on ValueError -/

/-- C4 counterexample: with the maximize flag set and cutoff 1, a ValueError
inside the fold loop makes run_cv return 10, not the value cutoff * -10 = -10
that the claim states. -/
theorem C4_counterexample :
    run_cv true 1 (Except.error (PyError.valueError "Unknown performance_type")) =
      Except.ok 10 ∧
    run_cv true 1 (Except.error (PyError.valueError "Unknown performance_type")) ≠
      Except.ok (1 * (-10)) := by
  refine ⟨rfl, fun h => ?_⟩
  have h10 : (10 : Int) = 1 * (-10) := Except.ok.inj h
  exact absurd h10 (by decide)

/-- C4 (amended): a ValueError raised anywhere inside the try block makes
run_cv return cutoff * 10 regardless of the maximize flag: the except branch
assigns cutoff * -10 when maximizing, and the final sign flip for maximizing
scenarios turns that into cutoff * 10 as well. -/
theorem C4_amended (maximize : Bool) (cutoff : Int) (msg : String) :
    run_cv maximize cutoff (Except.error (PyError.valueError msg)) =
      Except.ok (cutoff * 10) := by
  cases maximize with
  | false => rfl
  | true =>
    show Except.ok (cutoff * (-10) * (-1)) = Except.ok (cutoff * 10)
    congr 1
    ring

/-! ### Claim C5: empty pre-solving schedule is a no-op -/

/-- C5: combining an empty pre-solving schedule with any selector schedule
returns the selector schedule unchanged. -/
theorem C5_combine_empty_noop (S : List (String × List (String × Int))) :
    combineSchedules [] S = S := rfl

/-! ### Claim C6: combination with a non-empty pre-solving schedule -/

theorem lookup_map_keys {β γ : Type} (f : String → β → γ)
    (l : List (String × β)) (k : String) :
    (l.map (fun q => (q.1, f q.1 q.2))).lookup k = (l.lookup k).map (f k) := by
  induction l with
  | nil => rfl
  | cons q rest ih =>
    rcases q with ⟨a, b⟩
    rw [List.map_cons, List.lookup_cons, List.lookup_cons]
    cases hk : k == a with
    | true =>
      have ha : k = a := eq_of_beq hk
      subst ha
      rfl
    | false => exact ih

/-- C6: with a non-empty pre-solving schedule, every instance of the selector
schedule is mapped to the pre-solving entries for that instance (in their
original order) followed by the selector entries; an instance absent from the
pre-solving schedule contributes the empty default prefix instead of an
error. -/
theorem C6_combine_nonempty (pre preds : List (String × List (String × Int)))
    (hpre : pre ≠ []) (inst : String) :
    (combineSchedules pre preds).lookup inst =
      (preds.lookup inst).map (fun sch => ((pre.lookup inst).getD []) ++ sch) := by
  have hemp : pre.isEmpty = false := by
    cases pre with
    | nil => exact absurd rfl hpre
    | cons q rest => rfl
  unfold combineSchedules
  rw [hemp]
  show ((preds.map (fun q => (q.1, ((pre.lookup q.1).getD []) ++ q.2))).lookup inst) = _
  exact lookup_map_keys (fun k2 sch => ((pre.lookup k2).getD []) ++ sch) preds inst

/-- C6 witness: a concrete combination with one pre-solving entry present and
one instance missing from the pre-solving schedule. -/
theorem C6_combine_nonempty_witness :
    pre0 ≠ [] ∧
    (combineSchedules pre0 preds0).lookup "b" =
      (preds0.lookup "b").map (fun sch => ((pre0.lookup "b").getD []) ++ sch) :=
  ⟨by decide, C6_combine_nonempty pre0 preds0 (by decide) "b"⟩

/-! ### Claim C7: fit with fewer than two algorithms -/

/-- C7 counterexample: on a scenario with a single algorithm, fit completes
normally (it is a total function of the embedded code, which contains no
validation) and appends no classifier at all, instead of failing fast. -/
theorem C7_counterexample :
    ((PairwiseClassifier.mk0 recordCC).fit sOne ()).classifiers = [] ∧
    ((PairwiseClassifier.mk0 recordCC).fit sOne ()).algorithms = ["a1"] :=
  ⟨rfl, rfl⟩

/-- C7 (amended): with fewer than two algorithms, fit silently proceeds: the
pair loops are empty, so it appends no classifier and performs no fitting
work, and no error of any kind is raised. -/
theorem C7_amended {Feat Cfg C : Type} (pc : PairwiseClassifier Feat Cfg C)
    (s : ASlibScenario Feat) (cfg : Cfg) (h : s.algorithms.length < 2) :
    (pc.fit s cfg).classifiers = pc.classifiers := by
  unfold PairwiseClassifier.fit
  rw [canonicalPairs_eq_nil_of_lt_two _ h]
  simp

/-- C7 witness: the amended statement at the single-algorithm scenario. -/
theorem C7_amended_witness :
    sOne.algorithms.length < 2 ∧
    ((PairwiseClassifier.mk0 recordCC).fit sOne ()).classifiers =
      (PairwiseClassifier.mk0 recordCC).classifiers :=
  ⟨by decide, C7_amended (PairwiseClassifier.mk0 recordCC) sOne () (by decide)⟩

/-! ### Claim C10: fit_selector on a non-PairwiseClassifier configuration -/

/-- C10: whenever the configuration's selector value is anything other than
the string PairwiseClassifier (including an absent value), the local variable
selector is never assigned and the final return statement raises
UnboundLocalError. -/
theorem C10_unbound_selector {Feat Cfg C : Type} (rf : ClassifierClass Feat Cfg C)
    (s : ASlibScenario Feat) (config : String → Option String) (cfg : Cfg)
    (h : config "selector" ≠ some "PairwiseClassifier") :
    fit_selector rf s config cfg =
      Except.error (PyError.unboundLocalError "local variable referenced before assignment") := by
  unfold fit_selector
  rw [if_neg h]

/-- C10 witness: a configuration with no selector entry at all. -/
theorem C10_unbound_selector_witness :
    ((fun _ : String => (none : Option String)) "selector" ≠ some "PairwiseClassifier") ∧
    fit_selector recordCC sOne (fun _ => none) () =
      Except.error (PyError.unboundLocalError "local variable referenced before assignment") :=
  ⟨by decide, C10_unbound_selector recordCC sOne (fun _ => none) () (by decide)⟩

/-! ### Claim C1: the label vector of fit -/

/-- C1 counterexample: on the maximization scenario `sMax` (performances 1
and 2, maximize set), the label fit passes to the pair-(0,1) classifier at
instance 0 is 1, although algorithm 0 is not strictly better than algorithm 1
under the maximize convention; fit never consults the maximize flag. -/
theorem C1_counterexample :
    (((PairwiseClassifier.mk0 recordCC).fit sMax ()).classifiers.getD 0 (fun _ => false)) 0 = true ∧
    strictlyBetterSpec sMax.maximize (sMax.perfCol (sMax.algorithms.getD 0 "") 0)
      (sMax.perfCol (sMax.algorithms.getD 1 "") 0) = false :=
  ⟨rfl, rfl⟩

/-- C1 (amended): for every pair `(i, j)` in the canonical enumeration, the
label vector passed to that pair's classifier is 1 exactly when the raw
performance value of algorithm i is strictly smaller than that of algorithm j
(strictly better under the minimize convention), irrespective of the
scenario's maximize flag. -/
theorem C1_amended {Feat Cfg : Type} (s : ASlibScenario Feat) (cfg : Cfg) (t i j k : Nat)
    (h : (canonicalPairs s.algorithms.length)[t]? = some (i, j)) :
    ∃ y, (((PairwiseClassifier.mk0 (recordLabelCC Feat Cfg)).fit s cfg).classifiers)[t]? = some y ∧
      y k = strictlyBetterSpec false (s.perfCol (s.algorithms.getD i "") k)
        (s.perfCol (s.algorithms.getD j "") k) := by
  refine ⟨pairLabel s i j, ?_, rfl⟩
  unfold PairwiseClassifier.fit PairwiseClassifier.mk0
  simp only [List.nil_append, List.getElem?_map, h, Option.map_some']
  rfl

/-- C1 (amended) witness at the concrete scenario `sAB`, pair position 0. -/
theorem C1_amended_witness :
    ((canonicalPairs sAB.algorithms.length)[0]? = some (0, 1)) ∧
    ∃ y, (((PairwiseClassifier.mk0 (recordLabelCC Unit Unit)).fit sAB ()).classifiers)[0]? = some y ∧
      y 0 = strictlyBetterSpec false (sAB.perfCol (sAB.algorithms.getD 0 "") 0)
        (sAB.perfCol (sAB.algorithms.getD 1 "") 0) :=
  ⟨by decide, C1_amended sAB () 0 0 1 0 (by decide)⟩

/-! ### Claim C9: falsy configuration values can never be overwritten -/

theorem lookup_setItem_ne (l : List (String × PyVal)) (k p : String) (v : PyVal)
    (h : k ≠ p) : (setItem l k v).lookup p = l.lookup p := by
  induction l with
  | nil =>
    have hb : (p == k) = false := beq_eq_false_iff_ne.mpr (Ne.symm h)
    simp [setItem, List.lookup_cons, hb]
  | cons q rest ih =>
    rcases q with ⟨a, b⟩
    by_cases ha : a = k
    · subst ha
      have hb : (p == a) = false := beq_eq_false_iff_ne.mpr (Ne.symm h)
      simp [setItem, List.lookup_cons, hb]
    · simp only [setItem, if_neg ha, List.lookup_cons]
      cases hb : p == a with
      | true => rfl
      | false => exact ih

theorem overwriteFold_falsy_invariant (csHP : String → HPType) (pInt : String → Int)
    (pFloat : String → Rat) (p : String) :
    ∀ (ps : List (String × String)) (conf : List (String × PyVal))
      (log : List (String × String)),
      (((conf.lookup p).getD PyVal.pynone)).truthy = false →
      (ps.foldl (overwriteStep csHP pInt pFloat) (conf, log)).1.lookup p = conf.lookup p ∧
      (∀ e ∈ log, e ∈ (ps.foldl (overwriteStep csHP pInt pFloat) (conf, log)).2) ∧
      (∀ pv ∈ ps, pv.1 = p → pv ∈ (ps.foldl (overwriteStep csHP pInt pFloat) (conf, log)).2)
  | [], conf, log, hf => by simp
  | pv :: ps, conf, log, hf => by
    rw [List.foldl_cons]
    by_cases hg : (((conf.lookup pv.1).getD PyVal.pynone)).truthy = true
    · have hne : pv.1 ≠ p := by
        intro he
        rw [he, hf] at hg
        exact Bool.false_ne_true hg
      have hstep : overwriteStep csHP pInt pFloat (conf, log) pv =
          (setItem conf pv.1 (coerceOverride (csHP pv.1) pInt pFloat pv.2), log) := by
        simp [overwriteStep, hg]
      rw [hstep]
      have hf2 : (((setItem conf pv.1
          (coerceOverride (csHP pv.1) pInt pFloat pv.2)).lookup p).getD PyVal.pynone).truthy
          = false := by
        rw [lookup_setItem_ne _ _ _ _ hne]
        exact hf
      obtain ⟨h1, h2, h3⟩ := overwriteFold_falsy_invariant csHP pInt pFloat p ps _ log hf2
      refine ⟨by rw [h1, lookup_setItem_ne _ _ _ _ hne], h2, ?_⟩
      intro pv' hmem hp
      rcases List.mem_cons.mp hmem with he | hm
      · subst he
        exact absurd hp hne
      · exact h3 pv' hm hp
    · have hg' : (((conf.lookup pv.1).getD PyVal.pynone)).truthy = false :=
        Bool.eq_false_iff.mpr hg
      have hstep : overwriteStep csHP pInt pFloat (conf, log) pv = (conf, log ++ [pv]) := by
        simp [overwriteStep, hg']
      rw [hstep]
      obtain ⟨h1, h2, h3⟩ :=
        overwriteFold_falsy_invariant csHP pInt pFloat p ps conf (log ++ [pv]) hf
      refine ⟨h1, fun e he => h2 e (by simp [he]), ?_⟩
      intro pv' hmem hp
      rcases List.mem_cons.mp hmem with he | hm
      · subst he
        exact h2 pv' (by simp)
      · exact h3 pv' hm hp

/-- C9: a parameter whose current value in the configuration dictionary is
falsy (False, 0, None, empty) is never overwritten by
overwriteConfiguration, whatever the hyperparameter kinds and override list
are, and every override attempt for it ends up logged as an unknown
parameter. -/
theorem C9_falsy_param_never_overwritten (csHP : String → HPType) (pInt : String → Int)
    (pFloat : String → Rat) (conf : List (String × PyVal)) (args : List String) (p : String)
    (hfalsy : (((conf.lookup p).getD PyVal.pynone)).truthy = false) :
    (overwriteConfiguration csHP pInt pFloat conf args).1.lookup p = conf.lookup p ∧
    ∀ pv ∈ pairwiseIter args, pv.1 = p →
      pv ∈ (overwriteConfiguration csHP pInt pFloat conf args).2 := by
  obtain ⟨h1, _, h3⟩ :=
    overwriteFold_falsy_invariant csHP pInt pFloat p (pairwiseIter args) conf [] hfalsy
  exact ⟨h1, h3⟩

/-- C9 witness: a valid boolean hyperparameter currently set to False cannot
be overridden to True from the command line and the attempt is logged. -/
theorem C9_falsy_param_witness :
    ((([(("fgroup_x" : String), PyVal.pybool false)].lookup "fgroup_x").getD
        PyVal.pynone).truthy = false) ∧
    ((overwriteConfiguration (fun _ => HPType.categorical) (fun _ => 0) (fun _ => 0)
        [("fgroup_x", PyVal.pybool false)] ["fgroup_x", "True"]).1.lookup "fgroup_x" =
      [(("fgroup_x" : String), PyVal.pybool false)].lookup "fgroup_x" ∧
      ∀ pv ∈ pairwiseIter ["fgroup_x", "True"], pv.1 = "fgroup_x" →
        pv ∈ (overwriteConfiguration (fun _ => HPType.categorical) (fun _ => 0) (fun _ => 0)
          [("fgroup_x", PyVal.pybool false)] ["fgroup_x", "True"]).2) :=
  ⟨by decide, C9_falsy_param_never_overwritten (fun _ => HPType.categorical) (fun _ => 0)
    (fun _ => 0) [("fgroup_x", PyVal.pybool false)] ["fgroup_x", "True"] "fgroup_x" (by decide)⟩

/-! ### Counting and ordering the canonical pair enumeration -/

theorem rangeSum_succ (n : Nat) :
    ((List.range (n + 1)).map (fun i => n + 1 - (i + 1))).sum =
      n + ((List.range n).map (fun i => n - (i + 1))).sum := by
  have h1 : ((List.range (n + 1)).map (fun i => n + 1 - (i + 1))).sum
      = ((List.range (n + 1)).map (fun i => n - i)).sum := by
    congr 1
    exact List.map_congr_left (fun a _ => by omega)
  rw [h1, List.range_succ_eq_map]
  simp [List.map_map, Function.comp_def]

theorem canonicalPairs_length_aux (m : Nat) :
    (canonicalPairs m).length = ((List.range m).map (fun i => m - (i + 1))).sum := by
  simp [canonicalPairs, pyRange_zero, List.flatMap_def, List.map_map, Function.comp_def, pyRange]

theorem canonicalPairs_length_mul_two (n : Nat) :
    (canonicalPairs n).length * 2 = n * (n - 1) := by
  induction n with
  | zero => rfl
  | succ n ih =>
    rw [canonicalPairs_length_aux] at ih ⊢
    rw [rangeSum_succ, Nat.add_mul, ih]
    cases n with
    | zero => rfl
    | succ m =>
      simp only [Nat.succ_sub_one]
      ring

theorem canonicalPairs_length (n : Nat) : (canonicalPairs n).length = n * (n - 1) / 2 := by
  have h := canonicalPairs_length_mul_two n
  omega

theorem mem_pyRange (a b x : Nat) : x ∈ pyRange a b ↔ a ≤ x ∧ x < b := by
  simp only [pyRange, List.mem_map, List.mem_range]
  constructor
  · rintro ⟨k, hk, rfl⟩
    omega
  · rintro ⟨h1, h2⟩
    exact ⟨x - a, by omega, by omega⟩

theorem mem_canonicalPairs (n i j : Nat) :
    (i, j) ∈ canonicalPairs n ↔ i < j ∧ j < n := by
  unfold canonicalPairs
  rw [List.mem_flatMap]
  constructor
  · rintro ⟨a, ha, hmem⟩
    rw [List.mem_map] at hmem
    obtain ⟨b, hb, heq⟩ := hmem
    rw [mem_pyRange] at ha hb
    cases heq
    omega
  · rintro ⟨hij, hjn⟩
    refine ⟨i, ?_, ?_⟩
    · rw [mem_pyRange]
      omega
    · rw [List.mem_map]
      exact ⟨j, by rw [mem_pyRange]; omega, rfl⟩

theorem fetchClassifiers_ok {C : Type} (clfs : List C) :
    ∀ (ps : List (Nat × Nat)) (t : Nat), ps.length + t ≤ clfs.length →
      fetchClassifiers clfs ps t = Except.ok (ps.zip (clfs.drop t))
  | [], t, _ => by simp [fetchClassifiers]
  | p :: ps, t, h => by
    have h' : ps.length + 1 + t ≤ clfs.length := by simpa using h
    have ht : t < clfs.length := by omega
    have hget : clfs[t]? = some clfs[t] := List.getElem?_eq_getElem ht
    have ih := fetchClassifiers_ok clfs ps (t + 1) (by omega)
    simp only [fetchClassifiers, hget, ih]
    rw [List.drop_eq_getElem_cons ht]
    rfl

/-! ### Claim C3: classifier count, weights, and shared enumeration order -/

/-- C3: for a scenario with at least two algorithms, fit appends exactly
A*(A-1)/2 classifiers; the canonical enumeration contains precisely the pairs
(i, j) with i < j < A; the classifier stored at position t is the one fitted
on the labels and the absolute-performance-difference weights of the t-th
enumerated pair; and predict's positional classifier walk over the same
enumeration succeeds and pairs position t with exactly that classifier. -/
theorem C3_pair_enumeration {Feat Cfg C : Type} (cc : ClassifierClass Feat Cfg C)
    (s : ASlibScenario Feat) (cfg : Cfg) (h2 : 2 ≤ s.algorithms.length) :
    ((PairwiseClassifier.mk0 cc).fit s cfg).classifiers.length =
        s.algorithms.length * (s.algorithms.length - 1) / 2 ∧
    (∀ i j : Nat, (i, j) ∈ canonicalPairs s.algorithms.length ↔
        i < j ∧ j < s.algorithms.length) ∧
    (∀ (t : Nat) (ij : Nat × Nat), (canonicalPairs s.algorithms.length)[t]? = some ij →
        (((PairwiseClassifier.mk0 cc).fit s cfg).classifiers)[t]? =
          some (cc.fit s.X (pairLabel s ij.1 ij.2) cfg (pairWeight s ij.1 ij.2))) ∧
    fetchClassifiers ((PairwiseClassifier.mk0 cc).fit s cfg).classifiers
        (canonicalPairs s.algorithms.length) 0 =
      Except.ok ((canonicalPairs s.algorithms.length).zip
        ((PairwiseClassifier.mk0 cc).fit s cfg).classifiers) := by
  refine ⟨?_, fun i j => mem_canonicalPairs _ i j, ?_, ?_⟩
  · show (([] : List C) ++ _).length = _
    rw [List.nil_append, List.length_map, canonicalPairs_length]
  · intro t ij h
    show (([] : List C) ++ _)[t]? = _
    rw [List.nil_append, List.getElem?_map, h, Option.map_some']
    rfl
  · have hlen : ((PairwiseClassifier.mk0 cc).fit s cfg).classifiers.length =
        (canonicalPairs s.algorithms.length).length := by
      show (([] : List C) ++ _).length = _
      rw [List.nil_append, List.length_map]
    rw [fetchClassifiers_ok _ _ 0 (by omega), List.drop_zero]

/-- C3 witness at the two-algorithm scenario `sAB`. -/
theorem C3_pair_enumeration_witness :
    (2 ≤ sAB.algorithms.length) ∧
    ((PairwiseClassifier.mk0 recordCC).fit sAB ()).classifiers.length =
        sAB.algorithms.length * (sAB.algorithms.length - 1) / 2 ∧
    (∀ i j : Nat, (i, j) ∈ canonicalPairs sAB.algorithms.length ↔
        i < j ∧ j < sAB.algorithms.length) ∧
    (∀ (t : Nat) (ij : Nat × Nat), (canonicalPairs sAB.algorithms.length)[t]? = some ij →
        (((PairwiseClassifier.mk0 recordCC).fit sAB ()).classifiers)[t]? =
          some (recordCC.fit sAB.X (pairLabel sAB ij.1 ij.2) () (pairWeight sAB ij.1 ij.2))) ∧
    fetchClassifiers ((PairwiseClassifier.mk0 recordCC).fit sAB ()).classifiers
        (canonicalPairs sAB.algorithms.length) 0 =
      Except.ok ((canonicalPairs sAB.algorithms.length).zip
        ((PairwiseClassifier.mk0 recordCC).fit sAB ()).classifiers) :=
  ⟨by decide, C3_pair_enumeration recordCC sAB () (by decide)⟩

/-! ### Claim C8: predict performs no algorithm-set consistency check -/

/-- C8 counterexample: a selector fitted on `sAB` (algorithms A, B, where A
is strictly better) accepts a predict-time scenario whose algorithm list is
reversed: no error of any kind is raised, and the positional vote alignment
silently selects the name B. -/
theorem C8_counterexample :
    ((PairwiseClassifier.mk0 recordCC).fit sAB ()).predict sBA =
      Except.ok [("i1", [("B", 101)])] := rfl

/-- C8 (amended): predict never compares the predict-time algorithm list with
the fit-time one; whenever the predict-time pair enumeration does not exhaust
the stored classifier list, predict returns a schedule normally, whatever the
identity or order of the predict-time algorithm set. -/
theorem C8_amended {Feat Cfg C : Type} (pc : PairwiseClassifier Feat Cfg C)
    (s : ASlibScenario Feat)
    (h : (canonicalPairs s.algorithms.length).length ≤ pc.classifiers.length) :
    ∃ r, pc.predict s = Except.ok r := by
  simp only [PairwiseClassifier.predict]
  rw [fetchClassifiers_ok pc.classifiers (canonicalPairs s.algorithms.length) 0 (by omega)]
  exact ⟨_, rfl⟩

/-- C8 (amended) witness: the reversed-algorithm scenario from the
counterexample satisfies the classifier-count condition and predict
returns normally. -/
theorem C8_amended_witness :
    ((canonicalPairs sBA.algorithms.length).length ≤
      ((PairwiseClassifier.mk0 recordCC).fit sAB ()).classifiers.length) ∧
    ∃ r, ((PairwiseClassifier.mk0 recordCC).fit sAB ()).predict sBA = Except.ok r :=
  ⟨by decide, C8_amended _ sBA (by decide)⟩

/-! ### Stable argmax and the shape of the predicted schedule -/

theorem npArgmax_succ (f : Nat → Nat) (n : Nat) :
    npArgmax f (n + 1) = if f n > f (npArgmax f n) then n else npArgmax f n := by
  unfold npArgmax
  rw [List.range_succ, List.foldl_append]
  rfl

theorem npArgmax_stable (f : Nat → Nat) : ∀ n, 1 ≤ n → isStableArgmax f n (npArgmax f n)
  | 0, h => absurd h (by omega)
  | n + 1, _ => by
    cases Nat.eq_zero_or_pos n with
    | inl h0 =>
      subst h0
      have h1 : npArgmax f 1 = 0 := by
        have hr : List.range 1 = [0] := rfl
        simp [npArgmax, hr]
      rw [h1]
      refine ⟨by omega, ?_, ?_⟩
      · intro a ha
        have ha0 : a = 0 := by omega
        subst ha0
        exact Nat.le_refl _
      · intro a ha
        omega
    | inr hpos =>
      obtain ⟨hm, hmax, hfirst⟩ := npArgmax_stable f n hpos
      rw [npArgmax_succ]
      by_cases hc : f n > f (npArgmax f n)
      · rw [if_pos hc]
        refine ⟨by omega, ?_, ?_⟩
        · intro a ha
          rcases Nat.lt_succ_iff_lt_or_eq.mp ha with h | h
          · exact Nat.le_of_lt (Nat.lt_of_le_of_lt (hmax a h) hc)
          · subst h
            exact Nat.le_refl _
        · intro a ha
          exact Nat.lt_of_le_of_lt (hmax a ha) hc
      · rw [if_neg hc]
        refine ⟨by omega, ?_, hfirst⟩
        intro a ha
        rcases Nat.lt_succ_iff_lt_or_eq.mp ha with h | h
        · exact hmax a h
        · subst h
          omega

theorem zip_getElem? {α β : Type} (l : List α) (l' : List β) (k : Nat) (a : α) (b : β)
    (ha : l[k]? = some a) (hb : l'[k]? = some b) : (l.zip l')[k]? = some (a, b) :=
  List.getElem?_zip_eq_some.mpr ⟨ha, hb⟩

theorem predict_eq_of_enough {Feat Cfg C : Type} (pc : PairwiseClassifier Feat Cfg C)
    (s : ASlibScenario Feat)
    (h : (canonicalPairs s.algorithms.length).length ≤ pc.classifiers.length) :
    pc.predict s = Except.ok
      ((((List.range s.X.length).map (fun k =>
          (s.algorithms.getD
            (npArgmax (accumScores pc.classifier_class s.X
              ((canonicalPairs s.algorithms.length).zip pc.classifiers) k)
              s.algorithms.length) "",
           (if s.algorithm_cutoff_time ≠ 0 then s.algorithm_cutoff_time else 2 ^ 31) + 1))).zip
        s.instNames).map (fun q => (q.2, [q.1]))) := by
  have hfetch := fetchClassifiers_ok pc.classifiers (canonicalPairs s.algorithms.length) 0
    (by omega)
  rw [List.drop_zero] at hfetch
  simp only [PairwiseClassifier.predict]
  rw [hfetch]
  rfl

/-! ### Claim C2: shape of the returned schedule, tie-break, and budget -/

/-- C2: when the fitted classifier list covers the pair enumeration and the
instance index is aligned with the feature rows, predict returns a schedule
with one entry per instance row; the k-th entry maps the k-th instance name
to the single-element schedule [(selected, cutoff + 1)] where selected is the
algorithm at the lowest index attaining the maximal accumulated vote count
for that row, and the cutoff is the scenario's runtime cutoff when one is
set, else the sentinel 2 ^ 31. -/
theorem C2_predict_schedule {Feat Cfg C : Type} (pc : PairwiseClassifier Feat Cfg C)
    (s : ASlibScenario Feat) (hA : 1 ≤ s.algorithms.length)
    (hclf : (canonicalPairs s.algorithms.length).length ≤ pc.classifiers.length)
    (hinst : s.instNames.length = s.X.length) :
    ∃ sched, pc.predict s = Except.ok sched ∧
      sched.length = s.X.length ∧
      ∀ k : Nat, k < s.X.length →
        ∃ m : Nat,
          isStableArgmax (accumScores pc.classifier_class s.X
              ((canonicalPairs s.algorithms.length).zip pc.classifiers) k)
            s.algorithms.length m ∧
          sched[k]? = some (s.instNames.getD k "",
            [(s.algorithms.getD m "",
              (if s.algorithm_cutoff_time ≠ 0 then s.algorithm_cutoff_time else 2 ^ 31) + 1)]) := by
  refine ⟨_, predict_eq_of_enough pc s hclf, ?_, ?_⟩
  · rw [List.length_map, List.length_zip, List.length_map, List.length_range, hinst,
      Nat.min_self]
  · intro k hk
    refine ⟨npArgmax (accumScores pc.classifier_class s.X
        ((canonicalPairs s.algorithms.length).zip pc.classifiers) k) s.algorithms.length,
      npArgmax_stable _ _ hA, ?_⟩
    have hpk : ((List.range s.X.length).map (fun k2 =>
        (s.algorithms.getD
          (npArgmax (accumScores pc.classifier_class s.X
            ((canonicalPairs s.algorithms.length).zip pc.classifiers) k2)
            s.algorithms.length) "",
         (if s.algorithm_cutoff_time ≠ 0 then s.algorithm_cutoff_time else 2 ^ 31) + 1)))[k]? =
        some (s.algorithms.getD
          (npArgmax (accumScores pc.classifier_class s.X
            ((canonicalPairs s.algorithms.length).zip pc.classifiers) k)
            s.algorithms.length) "",
         (if s.algorithm_cutoff_time ≠ 0 then s.algorithm_cutoff_time else 2 ^ 31) + 1) := by
      rw [List.getElem?_map, List.getElem?_range hk, Option.map_some']
    have hk2 : k < s.instNames.length := by omega
    have hik : s.instNames[k]? = some (s.instNames.getD k "") := by
      rw [List.getElem?_eq_getElem hk2, List.getD_eq_getElem?_getD,
        List.getElem?_eq_getElem hk2]
      rfl
    rw [List.getElem?_map, zip_getElem? _ _ k _ _ hpk hik, Option.map_some']

/-- C2 witness: the concrete fitted selector over `sAB` predicting on its own
training scenario. -/
theorem C2_predict_schedule_witness :
    (1 ≤ sAB.algorithms.length) ∧
    ((canonicalPairs sAB.algorithms.length).length ≤
      ((PairwiseClassifier.mk0 recordCC).fit sAB ()).classifiers.length) ∧
    (sAB.instNames.length = sAB.X.length) ∧
    ∃ sched, ((PairwiseClassifier.mk0 recordCC).fit sAB ()).predict sAB = Except.ok sched ∧
      sched.length = sAB.X.length ∧
      ∀ k : Nat, k < sAB.X.length →
        ∃ m : Nat,
          isStableArgmax (accumScores ((PairwiseClassifier.mk0 recordCC).fit sAB ()).classifier_class sAB.X
              ((canonicalPairs sAB.algorithms.length).zip
                ((PairwiseClassifier.mk0 recordCC).fit sAB ()).classifiers) k)
            sAB.algorithms.length m ∧
          sched[k]? = some (sAB.instNames.getD k "",
            [(sAB.algorithms.getD m "",
              (if sAB.algorithm_cutoff_time ≠ 0 then sAB.algorithm_cutoff_time else 2 ^ 31) + 1)]) :=
  ⟨by decide, by decide, by decide,
    C2_predict_schedule ((PairwiseClassifier.mk0 recordCC).fit sAB ()) sAB
      (by decide) (by decide) (by decide)⟩
